import Mathlib

/-!
Verification of the fitness-tracker module (`homework.py`).

The program is embedded shallowly: Python floats become exact rationals
(`ℚ`), Python float floor division `//` becomes `pyFloorDiv` (the floor of
the true quotient, cast back to `ℚ`), printing becomes an explicit list of
output lines, and the uncaught `TypeError` raised by an arity mismatch in
`read_package` becomes the `Except.error` branch of the dispatcher.
-/

/-- Class constant `Training.M_IN_KM`. -/
def M_IN_KM : ℚ := 1000

/-- Class constant `Training.MIN_IN_HOUR`. -/
def MIN_IN_HOUR : ℚ := 60

/-- Class constant `Running.CALORIES_MEAN_SPEED_MULTIPLIER`. -/
def CALORIES_MEAN_SPEED_MULTIPLIER : ℚ := 18

/-- Class constant `Running.CALORIES_MEAN_SPEED_SHIFT`. -/
def CALORIES_MEAN_SPEED_SHIFT : ℚ := 20

/-- Class constant `SportsWalking.CALORIES_WEIGHT_MULTIPLIER`. -/
def CALORIES_WEIGHT_MULTIPLIER : ℚ := 0.035

/-- Class constant `SportsWalking.CALORIES_MEAN_SPEED_EXPONENT`. -/
def CALORIES_MEAN_SPEED_EXPONENT : ℕ := 2

/-- Class constant `SportsWalking.CALORIES_LOCAL_MULTIPLIER_WALK`. -/
def CALORIES_LOCAL_MULTIPLIER_WALK : ℚ := 0.029

/-- Class constant `Swimming.CALORIES_MEAN_SPEED_ADDEND`. -/
def CALORIES_MEAN_SPEED_ADDEND : ℚ := 1.1

/-- Class constant `Swimming.CALORIES_LOCAL_MULTIPLIER_SWIM`. -/
def CALORIES_LOCAL_MULTIPLIER_SWIM : ℚ := 2

/-- Python float floor division `x // y`: the floor of the true quotient. -/
def pyFloorDiv (x y : ℚ) : ℚ := ((⌊x / y⌋ : ℤ) : ℚ)

/-- The `Training` class hierarchy: one constructor per concrete subclass,
carrying exactly the fields its `__init__` stores. -/
inductive Training where
  | Running (action duration weight : ℚ)
  | SportsWalking (action duration weight height : ℚ)
  | Swimming (action duration weight length_pool count_pool : ℚ)
deriving DecidableEq

/-- Field `self.action` (set by `Training.__init__`). -/
def Training.action : Training → ℚ
  | .Running a _ _ => a
  | .SportsWalking a _ _ _ => a
  | .Swimming a _ _ _ _ => a

/-- Field `self.duration` (set by `Training.__init__`). -/
def Training.duration : Training → ℚ
  | .Running _ d _ => d
  | .SportsWalking _ d _ _ => d
  | .Swimming _ d _ _ _ => d

/-- Field `self.weight` (set by `Training.__init__`). -/
def Training.weight : Training → ℚ
  | .Running _ _ w => w
  | .SportsWalking _ _ w _ => w
  | .Swimming _ _ w _ _ => w

/-- Class constant `LEN_STEP`: `0.65` on `Training`, overridden to `1.38`
by `Swimming`. -/
def Training.LEN_STEP : Training → ℚ
  | .Swimming _ _ _ _ _ => 1.38
  | _ => 0.65

/-- `self.__class__.__name__`, as read by `show_training_info`. -/
def Training.className : Training → String
  | .Running _ _ _ => "Running"
  | .SportsWalking _ _ _ _ => "SportsWalking"
  | .Swimming _ _ _ _ _ => "Swimming"

/-- `Training.get_distance`: `action * LEN_STEP / M_IN_KM`. -/
def Training.get_distance (t : Training) : ℚ :=
  t.action * t.LEN_STEP / M_IN_KM

/-- `get_mean_speed`: `get_distance() / duration` on the base class,
overridden by `Swimming` to `length_pool * count_pool / M_IN_KM / duration`. -/
def Training.get_mean_speed : Training → ℚ
  | .Swimming _ d _ l c => l * c / M_IN_KM / d
  | t => t.get_distance / t.duration

/-- `get_spent_calories`, one branch per overriding subclass. -/
def Training.get_spent_calories : Training → ℚ
  | t@(.Running _ _ _) =>
      (CALORIES_MEAN_SPEED_MULTIPLIER * t.get_mean_speed
        - CALORIES_MEAN_SPEED_SHIFT)
        * t.weight / M_IN_KM * (t.duration * MIN_IN_HOUR)
  | t@(.SportsWalking _ _ _ ht) =>
      (CALORIES_WEIGHT_MULTIPLIER * t.weight
        + pyFloorDiv (t.get_mean_speed ^ CALORIES_MEAN_SPEED_EXPONENT) ht
          * CALORIES_LOCAL_MULTIPLIER_WALK * t.weight)
        * (t.duration * MIN_IN_HOUR)
  | t@(.Swimming _ _ _ _ _) =>
      (t.get_mean_speed + CALORIES_MEAN_SPEED_ADDEND)
        * CALORIES_LOCAL_MULTIPLIER_SWIM * t.weight

/-- The `InfoMessage` dataclass. -/
structure InfoMessage where
  training_type : String
  duration : ℚ
  distance : ℚ
  speed : ℚ
  calories : ℚ
deriving DecidableEq

/-- `Training.show_training_info`: build the `InfoMessage` from the class
name, the duration field, and the three computed metrics. -/
def Training.show_training_info (t : Training) : InfoMessage :=
  ⟨t.className, t.duration, t.get_distance, t.get_mean_speed,
    t.get_spent_calories⟩

/-- Three decimal digits of `k % 1000`, zero-padded to width 3 (the
fractional part produced by the `:.3f` format specifier). -/
def pad3 (k : ℕ) : String :=
  String.mk [Nat.digitChar (k / 100 % 10), Nat.digitChar (k / 10 % 10),
    Nat.digitChar (k % 10)]

/-- Round a rational to the nearest integer, ties to even (the rounding
used by fixed-point float formatting). -/
def roundHalfEven (x : ℚ) : ℤ :=
  let f := ⌊x⌋
  let r := x - f
  if r < 1 / 2 then f
  else if 1 / 2 < r then f + 1
  else if f % 2 = 0 then f else f + 1

/-- The `:.3f` format specifier: fixed-point with exactly three digits
after the decimal point. -/
def format3 (x : ℚ) : String :=
  let n := roundHalfEven (x * 1000)
  let sign := if n < 0 then "-" else ""
  let m := n.natAbs
  sign ++ Nat.repr (m / 1000) ++ ("." ++ pad3 (m % 1000))

/-- `InfoMessage.get_message`: instantiate `MESSAGE_STR_CONST`, every
numeric placeholder rendered with `:.3f`. -/
def InfoMessage.get_message (m : InfoMessage) : String :=
  "Тип тренировки: " ++ m.training_type ++ "; Длительность: "
    ++ format3 m.duration ++ " ч.; Дистанция: " ++ format3 m.distance
    ++ " км; Ср. скорость: " ++ format3 m.speed
    ++ " км/ч; Потрачено ккал: " ++ format3 m.calories ++ "."

/-- The `TypeError` that escapes `read_package` when `training_dict[workout_type](*data)`
is called with the wrong number of positional arguments; the `except KeyError`
clause does not catch it, so it is a fatal error. -/
structure ArityError where
  workout_type : String
  got : ℕ
deriving DecidableEq

/-- `read_package`: look the label up in `training_dict` and apply the
constructor to the unpacked `data`. An unknown label (`KeyError`) is caught:
the diagnostic line is printed and `None` is returned. An arity mismatch on
a known label is an uncaught `TypeError` (`Except.error`). The second
component of the `ok` result is the list of lines printed. -/
def read_package (workout_type : String) (data : List ℚ) :
    Except ArityError (Option Training × List String) :=
  if workout_type = "SWM" then
    match data with
    | [a, d, w, l, c] => .ok (some (.Swimming a d w l c), [])
    | _ => .error ⟨workout_type, data.length⟩
  else if workout_type = "RUN" then
    match data with
    | [a, d, w] => .ok (some (.Running a d w), [])
    | _ => .error ⟨workout_type, data.length⟩
  else if workout_type = "WLK" then
    match data with
    | [a, d, w, ht] => .ok (some (.SportsWalking a d w ht), [])
    | _ => .error ⟨workout_type, data.length⟩
  else
    .ok (none, ["Неизвестный тип тренировки " ++ workout_type])

/-- The source's `main` function (renamed: `main` is reserved in Lean): if a
training was produced, print the message of its `InfoMessage`; otherwise
print nothing. Returns the printed lines. -/
def main_output (training : Option Training) : List String :=
  match training with
  | some t => [t.show_training_info.get_message]
  | none => []

/-- The driver loop at the bottom of the module: for each `(workout_type,
data)` package, run `read_package` then `main`, collecting everything
printed; an uncaught arity error aborts the whole run. -/
def processPackages : List (String × List ℚ) → Except ArityError (List String)
  | [] => .ok []
  | (l, d) :: rest => do
      let (t, diag) ← read_package l d
      let out ← processPackages rest
      .ok (diag ++ main_output t ++ out)

/-- State-threaded `Training.get_distance`: the method reads fields, writes
none, and returns the distance together with the (unchanged) object. -/
def Training.get_distance_st (t : Training) : ℚ × Training :=
  (t.action * t.LEN_STEP / M_IN_KM, t)

/-- State-threaded `get_mean_speed` (with the `Swimming` override). -/
def Training.get_mean_speed_st : Training → ℚ × Training
  | t@(.Swimming _ d _ l c) => (l * c / M_IN_KM / d, t)
  | t =>
      let p := t.get_distance_st
      (p.1 / p.2.duration, p.2)

/-- State-threaded `get_spent_calories` (one branch per subclass). -/
def Training.get_spent_calories_st : Training → ℚ × Training
  | t@(.Running _ _ _) =>
      let p := t.get_mean_speed_st
      ((CALORIES_MEAN_SPEED_MULTIPLIER * p.1 - CALORIES_MEAN_SPEED_SHIFT)
        * p.2.weight / M_IN_KM * (p.2.duration * MIN_IN_HOUR), p.2)
  | t@(.SportsWalking _ _ _ ht) =>
      let p := t.get_mean_speed_st
      ((CALORIES_WEIGHT_MULTIPLIER * p.2.weight
        + pyFloorDiv (p.1 ^ CALORIES_MEAN_SPEED_EXPONENT) ht
          * CALORIES_LOCAL_MULTIPLIER_WALK * p.2.weight)
        * (p.2.duration * MIN_IN_HOUR), p.2)
  | t@(.Swimming _ _ _ _ _) =>
      let p := t.get_mean_speed_st
      ((p.1 + CALORIES_MEAN_SPEED_ADDEND) * CALORIES_LOCAL_MULTIPLIER_SWIM
        * p.2.weight, p.2)

/-- State-threaded `show_training_info`: the constructor arguments are
evaluated left to right, each method call receiving the object the previous
one returned. -/
def Training.show_training_info_st (t : Training) : InfoMessage × Training :=
  let p1 := t.get_distance_st
  let p2 := p1.2.get_mean_speed_st
  let p3 := p2.2.get_spent_calories_st
  (⟨t.className, t.duration, p1.1, p2.1, p3.1⟩, p3.2)

/-- C1: for every valid Running record (action, duration, weight) with
duration > 0, the computed calories equal
`(18*speed - 20) * weight / 1000 * duration * 60`, where
`speed = action*0.65/1000/duration`, exactly. -/
theorem running_calories_formula (a d w : ℚ) (h : 0 < d) :
    (Training.Running a d w).get_spent_calories =
      (18 * (a * 0.65 / 1000 / d) - 20) * w / 1000 * d * 60 := by
  simp only [Training.get_spent_calories, Training.get_mean_speed,
    Training.get_distance, Training.action, Training.duration,
    Training.weight, Training.LEN_STEP, M_IN_KM, MIN_IN_HOUR,
    CALORIES_MEAN_SPEED_MULTIPLIER, CALORIES_MEAN_SPEED_SHIFT]
  ring

/-- Witness for C1 at the record (15000, 1, 75). -/
theorem running_calories_formula_witness :
    (0 : ℚ) < 1 ∧
    (Training.Running 15000 1 75).get_spent_calories =
      (18 * ((15000 : ℚ) * 0.65 / 1000 / 1) - 20) * 75 / 1000 * 1 * 60 :=
  ⟨by norm_num, running_calories_formula 15000 1 75 (by norm_num)⟩

/-- C2: for every valid Walking record with duration > 0 and height ≠ 0,
the computed calories equal
`(0.035*weight + floor(speed^2 / height) * 0.029 * weight) * (duration*60)`
with `speed = action*0.65/1000/duration`; the middle term floors the true
quotient of the squared speed by the height (`pyFloorDiv 5 3 = 1`, not
`5/3`). -/
theorem walking_calories_formula (a d w ht : ℚ) (h : 0 < d) (hh : ht ≠ 0) :
    (Training.SportsWalking a d w ht).get_spent_calories =
      (0.035 * w + ((⌊(a * 0.65 / 1000 / d) ^ 2 / ht⌋ : ℤ) : ℚ)
        * 0.029 * w) * (d * 60) ∧
    pyFloorDiv 5 3 = 1 ∧ pyFloorDiv 5 3 ≠ 5 / 3 := by
  refine ⟨?_, ?_, ?_⟩
  · simp only [Training.get_spent_calories, Training.get_mean_speed,
      Training.get_distance, Training.action, Training.duration,
      Training.weight, Training.LEN_STEP, M_IN_KM, MIN_IN_HOUR,
      CALORIES_WEIGHT_MULTIPLIER, CALORIES_MEAN_SPEED_EXPONENT,
      CALORIES_LOCAL_MULTIPLIER_WALK, pyFloorDiv]
  · norm_num [pyFloorDiv]
  · norm_num [pyFloorDiv]

/-- Witness for C2 at the record (9000, 1, 75, 180). -/
theorem walking_calories_formula_witness :
    ((0 : ℚ) < 1 ∧ (180 : ℚ) ≠ 0) ∧
    (Training.SportsWalking 9000 1 75 180).get_spent_calories =
      (0.035 * 75 + ((⌊((9000 : ℚ) * 0.65 / 1000 / 1) ^ 2 / 180⌋ : ℤ) : ℚ)
        * 0.029 * 75) * (1 * 60) ∧
    pyFloorDiv 5 3 = 1 ∧ pyFloorDiv 5 3 ≠ 5 / 3 := by
  have hcal := walking_calories_formula 9000 1 75 180 (by norm_num) (by norm_num)
  exact ⟨⟨by norm_num, by norm_num⟩, hcal.1, hcal.2.1, hcal.2.2⟩

/-- C3: for every valid Swimming record with duration > 0, the mean speed
equals `length_pool*count_pool/1000/duration` and the calories equal
`(speed + 1.1) * 2 * weight`. -/
theorem swimming_speed_calories (a d w l c : ℚ) (h : 0 < d) :
    (Training.Swimming a d w l c).get_mean_speed = l * c / 1000 / d ∧
    (Training.Swimming a d w l c).get_spent_calories =
      (l * c / 1000 / d + 1.1) * 2 * w :=
  ⟨rfl, rfl⟩

/-- Witness for C3 at the record (720, 1, 80, 25, 40). -/
theorem swimming_speed_calories_witness :
    (0 : ℚ) < 1 ∧
    (Training.Swimming 720 1 80 25 40).get_mean_speed =
      (25 : ℚ) * 40 / 1000 / 1 ∧
    (Training.Swimming 720 1 80 25 40).get_spent_calories =
      ((25 : ℚ) * 40 / 1000 / 1 + 1.1) * 2 * 80 :=
  ⟨by norm_num, swimming_speed_calories 720 1 80 25 40 (by norm_num)⟩

/-- C7: the Swimming step length constant is 1.38, so swimming distance is
`action*1.38/1000`; the override affects distance only, since swimming
calories do not depend on the action count (hence not on the distance). -/
theorem swimming_len_step_distance_only (a d w l c a2 : ℚ) :
    (Training.Swimming a d w l c).get_distance = a * 1.38 / 1000 ∧
    (Training.Swimming a d w l c).get_spent_calories =
      (Training.Swimming a2 d w l c).get_spent_calories :=
  ⟨rfl, rfl⟩

/-- `roundHalfEven` computed from a bracketing of its argument (round-down
case, which covers every concrete value appearing below). -/
theorem roundHalfEven_eq (x : ℚ) (n : ℤ) (h1 : (n : ℚ) ≤ x)
    (h2 : x < n + 1 / 2) : roundHalfEven x = n := by
  have hf : ⌊x⌋ = n := by
    rw [Int.floor_eq_iff]
    refine ⟨h1, ?_⟩
    calc x < (n : ℚ) + 1 / 2 := h2
    _ ≤ n + 1 := by norm_num
  simp only [roundHalfEven, hf]
  have hr : x - (n : ℚ) < 1 / 2 := by linarith
  rw [if_pos hr]

/-- `format3` computed from a bracketing of its scaled argument. -/
theorem format3_eq_of (x : ℚ) (n : ℤ) (h1 : (n : ℚ) ≤ x * 1000)
    (h2 : x * 1000 < n + 1 / 2) :
    format3 x = (if n < 0 then "-" else "")
      ++ Nat.repr (n.natAbs / 1000) ++ ("." ++ pad3 (n.natAbs % 1000)) := by
  simp only [format3, roundHalfEven_eq (x * 1000) n h1 h2]

/-- Counterexample to C4 as stated: the diagnostic printed for the unknown
label "XYZ" is the source's Russian line, not the literal string
"Unknown workout type XYZ". -/
theorem unknown_label_counterexample :
    read_package "XYZ" [1, 2, 3] =
      .ok (none, ["Неизвестный тип тренировки XYZ"]) ∧
    "Неизвестный тип тренировки XYZ" ≠ "Unknown workout type XYZ" :=
  ⟨rfl, by decide⟩

/-- C4 (amended): dispatching a record whose label is not in
SWM/RUN/WLK yields no training and produces exactly one diagnostic line,
"Неизвестный тип тренировки " followed by the label; no fatal error is
raised, and subsequent records in the batch still process normally. -/
theorem unknown_label_skipped (label : String) (data : List ℚ)
    (rest : List (String × List ℚ))
    (h1 : label ≠ "SWM") (h2 : label ≠ "RUN") (h3 : label ≠ "WLK") :
    read_package label data =
      .ok (none, ["Неизвестный тип тренировки " ++ label]) ∧
    processPackages ((label, data) :: rest) =
      (processPackages rest).map
        (fun out => ("Неизвестный тип тренировки " ++ label) :: out) := by
  have hrp : read_package label data =
      .ok (none, ["Неизвестный тип тренировки " ++ label]) := by
    simp [read_package, h1, h2, h3]
  refine ⟨hrp, ?_⟩
  simp only [processPackages, hrp]
  cases hpp : processPackages rest with
  | ok out => rfl
  | error e => rfl

/-- Witness for C4 (amended) at label "XYZ" with a running record after it. -/
theorem unknown_label_skipped_witness :
    (("XYZ" : String) ≠ "SWM" ∧ ("XYZ" : String) ≠ "RUN"
      ∧ ("XYZ" : String) ≠ "WLK") ∧
    read_package "XYZ" [1, 2, 3] =
      .ok (none, ["Неизвестный тип тренировки " ++ "XYZ"]) ∧
    processPackages [("XYZ", [1, 2, 3]), ("RUN", [15000, 1, 75])] =
      (processPackages [("RUN", [15000, 1, 75])]).map
        (fun out => ("Неизвестный тип тренировки " ++ "XYZ") :: out) :=
  ⟨⟨by decide, by decide, by decide⟩,
    unknown_label_skipped "XYZ" [1, 2, 3] [("RUN", [15000, 1, 75])]
      (by decide) (by decide) (by decide)⟩

/-- Counterexample to C5 as stated: the calories of the record
("RUN", [15000, 1, 75]) are 699.75, not 691.2 as the claim computes. -/
theorem run_sample_counterexample :
    (Training.Running 15000 1 75).get_spent_calories ≠ 691.2 ∧
    (Training.Running 15000 1 75).get_spent_calories = 699.75 := by
  constructor <;>
    norm_num [Training.get_spent_calories, Training.get_mean_speed,
      Training.get_distance, Training.action, Training.duration,
      Training.weight, Training.LEN_STEP, M_IN_KM, MIN_IN_HOUR,
      CALORIES_MEAN_SPEED_MULTIPLIER, CALORIES_MEAN_SPEED_SHIFT]

/-- C5 (amended): end-to-end, the record ("RUN", [15000, 1, 75]) produces
a report with distance 9.750, speed 9.750, calories
(18*9.75-20)*75/1000*60 = 699.750 (to 3 decimals), and training_type
"Running". -/
theorem run_sample_endtoend :
    read_package "RUN" [15000, 1, 75] =
      .ok (some (.Running 15000 1 75), []) ∧
    (Training.Running 15000 1 75).show_training_info =
      ⟨"Running", 1, 9.75, 9.75, (18 * 9.75 - 20) * 75 / 1000 * 60⟩ ∧
    ((18 : ℚ) * 9.75 - 20) * 75 / 1000 * 60 = 699.75 ∧
    format3 9.75 = "9.750" ∧ format3 699.75 = "699.750" := by
  refine ⟨rfl, ?_, by norm_num, ?_, ?_⟩
  · norm_num [Training.show_training_info, Training.className,
      Training.get_spent_calories, Training.get_mean_speed,
      Training.get_distance, Training.action, Training.duration,
      Training.weight, Training.LEN_STEP, M_IN_KM, MIN_IN_HOUR,
      CALORIES_MEAN_SPEED_MULTIPLIER, CALORIES_MEAN_SPEED_SHIFT,
      InfoMessage.mk.injEq]
  · rw [format3_eq_of 9.75 9750 (by norm_num) (by norm_num)]
    decide
  · rw [format3_eq_of 699.75 699750 (by norm_num) (by norm_num)]
    decide

/-- C6: every rendered summary follows the fixed template with each numeric
field rendered fixed-point with exactly three decimal digits regardless of
input precision (4.875000001 renders as "4.875"). -/
theorem message_template_three_decimals (m : InfoMessage) :
    m.get_message =
      "Тип тренировки: " ++ m.training_type ++ "; Длительность: "
        ++ format3 m.duration ++ " ч.; Дистанция: " ++ format3 m.distance
        ++ " км; Ср. скорость: " ++ format3 m.speed
        ++ " км/ч; Потрачено ккал: " ++ format3 m.calories ++ "." ∧
    (∀ x : ℚ, ∃ pre : String,
      format3 x =
        pre ++ ("." ++ pad3 ((roundHalfEven (x * 1000)).natAbs % 1000)) ∧
      (pad3 ((roundHalfEven (x * 1000)).natAbs % 1000)).length = 3) ∧
    format3 (4.875000001 : ℚ) = "4.875" := by
  refine ⟨rfl, fun x => ⟨(if roundHalfEven (x * 1000) < 0 then "-" else "")
    ++ Nat.repr ((roundHalfEven (x * 1000)).natAbs / 1000), rfl, rfl⟩, ?_⟩
  rw [format3_eq_of (4.875000001 : ℚ) 4875 (by norm_num) (by norm_num)]
  decide

/-- C8: when the label is one of the three known ones but the data arity
does not match the variant's field count (3 running, 4 walking, 5
swimming), the condition is not handled: the error is fatal (no
diagnostic, no result), and it aborts the batch instead of being skipped
like an unknown label. -/
theorem arity_mismatch_fatal (label : String) (data : List ℚ)
    (rest : List (String × List ℚ))
    (h : (label = "RUN" ∧ data.length ≠ 3)
      ∨ (label = "WLK" ∧ data.length ≠ 4)
      ∨ (label = "SWM" ∧ data.length ≠ 5)) :
    read_package label data = .error ⟨label, data.length⟩ ∧
    processPackages ((label, data) :: rest) =
      .error ⟨label, data.length⟩ := by
  have hrp : read_package label data = .error ⟨label, data.length⟩ := by
    rcases h with ⟨hl, hn⟩ | ⟨hl, hn⟩ | ⟨hl, hn⟩ <;> subst hl
    · rcases data with _ | ⟨a, _ | ⟨b, _ | ⟨c, _ | ⟨e, tl⟩⟩⟩⟩
      · rfl
      · rfl
      · rfl
      · exact absurd rfl hn
      · rfl
    · rcases data with _ | ⟨a, _ | ⟨b, _ | ⟨c, _ | ⟨e, _ | ⟨f, tl⟩⟩⟩⟩⟩
      · rfl
      · rfl
      · rfl
      · rfl
      · exact absurd rfl hn
      · rfl
    · rcases data with _ | ⟨a, _ | ⟨b, _ | ⟨c, _ | ⟨e, _ | ⟨f, _ | ⟨g, tl⟩⟩⟩⟩⟩⟩
      · rfl
      · rfl
      · rfl
      · rfl
      · rfl
      · exact absurd rfl hn
      · rfl
  refine ⟨hrp, ?_⟩
  simp only [processPackages, hrp]
  rfl

/-- Witness for C8: a running record with only two data elements. -/
theorem arity_mismatch_fatal_witness :
    (("RUN" : String) = "RUN" ∧ ([(1 : ℚ), 2] : List ℚ).length ≠ 3) ∧
    read_package "RUN" [1, 2] = .error ⟨"RUN", 2⟩ ∧
    processPackages [("RUN", [1, 2])] = .error ⟨"RUN", 2⟩ :=
  ⟨⟨rfl, by decide⟩,
    arity_mismatch_fatal "RUN" [1, 2] [] (Or.inl ⟨rfl, by decide⟩)⟩

/-- C9: the training_type carried in the report is the formula-set class
name, not the dispatch label: "RUN" reports "Running", "SWM" reports
"Swimming", "WLK" reports "SportsWalking" (not "Walking" and not "WLK"). -/
theorem training_type_is_class_name (a d w ht l c : ℚ) :
    read_package "RUN" [a, d, w] = .ok (some (.Running a d w), []) ∧
    (Training.Running a d w).show_training_info.training_type = "Running" ∧
    read_package "SWM" [a, d, w, l, c] =
      .ok (some (.Swimming a d w l c), []) ∧
    (Training.Swimming a d w l c).show_training_info.training_type =
      "Swimming" ∧
    read_package "WLK" [a, d, w, ht] =
      .ok (some (.SportsWalking a d w ht), []) ∧
    (Training.SportsWalking a d w ht).show_training_info.training_type =
      "SportsWalking" ∧
    ("SportsWalking" : String) ≠ "Walking" ∧
    ("SportsWalking" : String) ≠ "WLK" :=
  ⟨rfl, rfl, rfl, rfl, rfl, rfl, by decide, by decide⟩

/-- C10: producing a report is pure with respect to the measurement record:
each method returns the record with every field unchanged, the threaded
`show_training_info` agrees with the pure one, and two successive calls on
the same record return equal reports. -/
theorem show_training_info_pure (t : Training) :
    t.show_training_info_st.2 = t ∧
    t.get_distance_st.2 = t ∧
    t.get_mean_speed_st.2 = t ∧
    t.get_spent_calories_st.2 = t ∧
    t.show_training_info_st.1 = t.show_training_info ∧
    t.show_training_info_st.2.show_training_info_st.1 =
      t.show_training_info_st.1 := by
  cases t <;> exact ⟨rfl, rfl, rfl, rfl, rfl, rfl⟩
